import Mathlib

/-!
Verification of the EBS CSI driver controller service
(`pkg/driver/controller.go`) against its specification.

The controller handlers are shallowly embedded as pure Lean functions over
an abstract cloud-provider interface (`Cloud`), mirroring the Go `Driver`
struct whose `cloud` field is an interface.  The concrete provider
(`pkg/cloud`, not part of the sources under verification) is modelled from
the specification's §4.1 as `awsCloud` acting on an explicit `CloudState`.
Go `(value, error)` returns are embedded as `Option value × Option error`
where the caller inspects both components, and as `Except error value`
where the caller only branches on the error.  Log statements are dropped;
formatted error-message arguments are rendered by plain concatenation.
-/

namespace EBSCSI

/-- 1 GiB = 2^30 bytes (spec §4.1, capacity semantics). -/
def GiB : Int := 1073741824

/-- Modelled from the spec: `cloud.DefaultVolumeSize` is not under `src/`;
§4.2 step 2 fixes the default volume size at 10 GiB. -/
def DefaultVolumeSize : Int := 10 * GiB

/-- Modelled from the spec: `util.GiBToBytes` is not under `src/`; converts
a GiB count to bytes. -/
def GiBToBytes (g : Int) : Int := g * GiB

/-- Modelled from the spec: `util.BytesToGiB` is not under `src/`; converts
bytes to whole GiB. -/
def BytesToGiB (b : Int) : Int := b / GiB

/-- Modelled from the spec: `util.RoundUpBytes` is not under `src/`.
§4.1 capacity semantics: byte-granularity requests are rounded up to GiB,
strictly up; zero or negative requested bytes are treated as the default
size of §4.2. -/
def RoundUpBytes (b : Int) : Int :=
  if b ≤ 0 then DefaultVolumeSize else GiB * ((b + GiB - 1) / GiB)

/-- Modelled from the spec: the name-tag key (`cloud.VolumeNameTagKey`, not
under `src/`) whose value is the caller-supplied volume name (spec §3,
DiskOptions). -/
def VolumeNameTagKey : String := "CSIVolumeName"

/-- Modelled from the spec: the snapshot name-tag key
(`cloud.SnapshotNameTagKey`, not under `src/`). -/
def SnapshotNameTagKey : String := "CSISnapshotName"

/-- Modelled from the spec: `cloud.VolumeTypeIO1` is not under `src/`; the
provisioned-IOPS volume class name (spec §6: `type` ∈ gp2, io1, st1, sc1). -/
def VolumeTypeIO1 : String := "io1"

/-- Modelled from the spec: the reserved well-known zone topology key
(`topologyKey` in `driver.go`, not under `src/`).  Claims treat the key as
opaque; only its use as a lookup key matters. -/
def topologyKey : String := "topology.ebs.csi.aws.com/zone"

/-- Provider sentinel errors (spec §7, propagation policy; the error values
of `pkg/cloud`, which is not under `src/`). -/
inductive CloudErr
  | errNotFound
  | errMultiDisks
  | errDiskExistsDiffSize
  | errAlreadyExists
  | errTimeout
deriving DecidableEq, Repr

/-- gRPC status codes used by the controller (spec §7 taxonomy).
`unknown` is the code a caller observes on a non-status error. -/
inductive Code
  | ok
  | invalidArgument
  | notFound
  | alreadyExists
  | internal
  | unimplemented
  | unknown
deriving DecidableEq, Repr

/-- An error returned by a controller handler: either a gRPC status error
built with `status.Error(code, msg)`, or a raw provider error passed
through unchanged (as `CreateSnapshot` does at controller.go line 301). -/
inductive CtrlErr
  | status (code : Code) (msg : String)
  | cloudErr (e : CloudErr)
deriving DecidableEq, Repr

instance {ε α : Type} [DecidableEq ε] [DecidableEq α] : DecidableEq (Except ε α) := by
  intro a b
  cases a <;> cases b
  case error.error x y =>
    exact if h : x = y then .isTrue (by rw [h]) else .isFalse (by intro hc; cases hc; exact h rfl)
  case ok.ok x y =>
    exact if h : x = y then .isTrue (by rw [h]) else .isFalse (by intro hc; cases hc; exact h rfl)
  case error.ok x y => exact .isFalse (by intro hc; cases hc)
  case ok.error x y => exact .isFalse (by intro hc; cases hc)

/-- The gRPC code a caller extracts from a handler result via
`status.FromError(err).Code()`: `ok` on success, the status code on a
status error, and `unknown` on a raw (non-status) error. -/
def resultCode {α : Type} : Except CtrlErr α → Code
  | .ok _ => .ok
  | .error (.status c _) => c
  | .error (.cloudErr _) => .unknown

/-- A provisioned block device as the provider reports it
(`cloud.Disk`; spec §3). -/
structure Disk where
  volumeID : String
  capacityGiB : Int
  availabilityZone : String
  fsType : String
deriving DecidableEq, Repr

/-- A snapshot record (`cloud.Snapshot`; spec §3).  The creation timestamp
is an integer instant. -/
structure Snapshot where
  snapshotID : String
  sourceVolumeID : String
  size : Int
  creationTime : Int
deriving DecidableEq, Repr

/-- `cloud.DiskOptions` (spec §3). -/
structure DiskOptions where
  capacityBytes : Int
  tags : List (String × String)
  volumeType : String
  iopsPerGB : Int
  availabilityZone : String
  encrypted : Bool
  kmsKeyID : String
  snapshotID : String
deriving DecidableEq, Repr

/-- `cloud.SnapshotOptions`. -/
structure SnapshotOptions where
  tags : List (String × String)
deriving DecidableEq, Repr

/-- Volume access modes (`csi.VolumeCapability_AccessMode_Mode`). -/
inductive AccessMode
  | unknown
  | singleNodeWriter
  | singleNodeReaderOnly
  | multiNodeReaderOnly
  | multiNodeSingleWriter
  | multiNodeMultiWriter
deriving DecidableEq, Repr

/-- `csi.VolumeCapability`.  The Go message wraps the mode in an
`AccessMode` sub-message that may be nil; the wrapper adds nothing beyond
the mode, so it is collapsed to an optional mode. -/
structure VolumeCapability where
  accessMode : Option AccessMode
deriving DecidableEq, Repr

/-- `cap.AccessMode.GetMode()`: a nil access-mode message yields the
`UNKNOWN` mode. -/
def VolumeCapability.getModeOrUnknown (vc : VolumeCapability) : AccessMode :=
  vc.accessMode.getD .unknown

/-- `csi.CapacityRange`. -/
structure CapacityRange where
  requiredBytes : Int
  limitBytes : Int
deriving DecidableEq, Repr

/-- `req.GetCapacityRange().GetLimitBytes()`: a nil range yields 0. -/
def getLimitBytes : Option CapacityRange → Int
  | none => 0
  | some cr => cr.limitBytes

/-- `csi.Topology`: a map of segment keys to values. -/
structure Topology where
  segments : List (String × String)
deriving DecidableEq, Repr

/-- `csi.TopologyRequirement`. -/
structure TopologyRequirement where
  requisite : List Topology
  preferred : List Topology
deriving DecidableEq, Repr

/-- A snapshot content source (`csi.VolumeContentSource_SnapshotSource`). -/
structure SnapshotSource where
  snapshotId : String
deriving DecidableEq, Repr

/-- `csi.VolumeContentSource`: a oneof whose snapshot arm may carry a nil
inner message; any other arm is unsupported by the controller. -/
inductive VolumeContentSource
  | snapshot (snap : Option SnapshotSource)
  | otherType
deriving DecidableEq, Repr

/-- Go map indexing on a (possibly nil) string map: a missing key yields
the empty string. -/
def getParam (params : List (String × String)) (k : String) : String :=
  (params.lookup k).getD ""

/-- `csi.CreateVolumeRequest` (the fields the controller reads). -/
structure CreateVolumeRequest where
  name : String
  capacityRange : Option CapacityRange
  volumeCapabilities : List VolumeCapability
  parameters : List (String × String)
  accessibilityRequirements : Option TopologyRequirement
  volumeContentSource : Option VolumeContentSource
deriving DecidableEq, Repr

/-- `csi.Volume` (the response payload fields the controller fills). -/
structure Volume where
  volumeId : String
  capacityBytes : Int
  volumeContext : List (String × String)
  accessibleTopology : List Topology
deriving DecidableEq, Repr

/-- `csi.CreateVolumeResponse`. -/
structure CreateVolumeResponse where
  volume : Volume
deriving DecidableEq, Repr

/-- `csi.DeleteVolumeRequest`. -/
structure DeleteVolumeRequest where
  volumeId : String
deriving DecidableEq, Repr

/-- `csi.DeleteVolumeResponse` (empty message). -/
structure DeleteVolumeResponse where
deriving DecidableEq, Repr

/-- `csi.ControllerPublishVolumeRequest` (the fields the controller reads). -/
structure ControllerPublishVolumeRequest where
  volumeId : String
  nodeId : String
  volumeCapability : Option VolumeCapability
deriving DecidableEq, Repr

/-- `csi.ControllerPublishVolumeResponse`. -/
structure ControllerPublishVolumeResponse where
  publishContext : List (String × String)
deriving DecidableEq, Repr

/-- `csi.ValidateVolumeCapabilitiesRequest` (the fields the controller reads). -/
structure ValidateVolumeCapabilitiesRequest where
  volumeId : String
  volumeCapabilities : List VolumeCapability
deriving DecidableEq, Repr

/-- `csi.ValidateVolumeCapabilitiesResponse_Confirmed`. -/
structure ConfirmedCaps where
  volumeCapabilities : List VolumeCapability
deriving DecidableEq, Repr

/-- `csi.ValidateVolumeCapabilitiesResponse`. -/
structure ValidateVolumeCapabilitiesResponse where
  confirmed : Option ConfirmedCaps
deriving DecidableEq, Repr

/-- `csi.CreateSnapshotRequest` (the fields the controller reads). -/
structure CreateSnapshotRequest where
  name : String
  sourceVolumeId : String
  parameters : List (String × String)
deriving DecidableEq, Repr

/-- `csi.Snapshot` (response payload). -/
structure CSISnapshot where
  snapshotId : String
  sourceVolumeId : String
  sizeBytes : Int
  creationTime : Int
  readyToUse : Bool
deriving DecidableEq, Repr

/-- `csi.CreateSnapshotResponse`. -/
structure CreateSnapshotResponse where
  snapshot : CSISnapshot
deriving DecidableEq, Repr

/-- The cloud-provider interface consumed by the controller
(`cloud.Cloud` as used in `controller.go`; spec §4.1 operations).  `σ` is
the provider's observable state; mutating operations return the new state. -/
structure Cloud (σ : Type) where
  getDiskByName : σ → String → Int → Option Disk × Option CloudErr
  getDiskByID : σ → String → Option Disk × Option CloudErr
  createDisk : σ → String → DiskOptions → Except CloudErr Disk × σ
  deleteDisk : σ → String → Except CloudErr Bool × σ
  attachDisk : σ → String → String → Except CloudErr String × σ
  isExistInstance : σ → String → Bool
  getSnapshotByName : σ → String → Option Snapshot × Option CloudErr
  createSnapshot : σ → String → SnapshotOptions → Except CloudErr Snapshot × σ

/-- The `Driver` struct (the fields the controller service reads):
the cloud provider and the supported volume access modes. -/
structure Driver (σ : Type) where
  cloud : Cloud σ
  volumeCaps : List AccessMode

/-- The inner `hasSupport` closure of `isValidVolumeCapabilities`
(controller.go lines 270-277). -/
def hasSupport (supported : List AccessMode) (cap : VolumeCapability) : Bool :=
  supported.any fun c => c == cap.getModeOrUnknown

/-- controller.go lines 269-286: every requested capability's access mode
must be among the driver's supported modes. -/
def Driver.isValidVolumeCapabilities {σ : Type} (d : Driver σ)
    (volCaps : List VolumeCapability) : Bool :=
  volCaps.foldl (fun foundAll c => if !(hasSupport d.volumeCaps c) then false else foundAll) true

/-- The loop body of `pickAvailabilityZone`: first topology in the list
whose segments carry the zone key. -/
def lookupZone : List Topology → Option String
  | [] => none
  | t :: rest =>
    match t.segments.lookup topologyKey with
    | some zone => some zone
    | none => lookupZone rest

/-- controller.go lines 346-365: select one zone from a topology
requirement, preferring `Preferred` over `Requisite`; empty string when
absent or nil. -/
def pickAvailabilityZone : Option TopologyRequirement → String
  | none => ""
  | some requirement =>
    match lookupZone requirement.preferred with
    | some zone => zone
    | none =>
      match lookupZone requirement.requisite with
      | some zone => zone
      | none => ""

/-- controller.go lines 367-382: build the CreateVolume response from a
disk record. -/
def newCreateVolumeResponse (disk : Disk) : CreateVolumeResponse :=
  ⟨⟨disk.volumeID, GiBToBytes disk.capacityGiB,
    [("fsType", disk.fsType)],
    [⟨[(topologyKey, disk.availabilityZone)]⟩]⟩⟩

/-- controller.go lines 384-398: build the CreateSnapshot response.  The
protobuf timestamp conversion is modelled as total on integer instants, so
its error branch is never taken; `ReadyToUse` is the literal `true`. -/
def newCreateSnapshotResponse (snapshot : Snapshot) : Except CtrlErr CreateSnapshotResponse :=
  .ok ⟨⟨snapshot.snapshotID, snapshot.sourceVolumeID, snapshot.size,
        snapshot.creationTime, true⟩⟩

/-- controller.go lines 39-42: the requested size, defaulting when no
capacity range is given. -/
def reqVolSize (req : CreateVolumeRequest) : Int :=
  match req.capacityRange with
  | none => DefaultVolumeSize
  | some cr => cr.requiredBytes

/-- controller.go lines 78-128: the create-a-new-volume tail of
`CreateVolume`, reached when `GetDiskByName` reported `ErrNotFound`. -/
def Driver.createVolumeNewDisk {σ : Type} (d : Driver σ) (st : σ)
    (req : CreateVolumeRequest) (volName : String) (volSizeBytes : Int) :
    Except CtrlErr CreateVolumeResponse × σ :=
  let zone := pickAvailabilityZone req.accessibilityRequirements
  let volumeParams := req.parameters
  let volumeType := getParam volumeParams "type"
  let iopsParse : Except CtrlErr Int :=
    if volumeType = VolumeTypeIO1 then
      match (getParam volumeParams "iopsPerGB").toInt? with
      | some n => .ok n
      | none => .error (.status .invalidArgument "Could not parse invalid iopsPerGB")
    else .ok 0
  match iopsParse with
  | .error e => (.error e, st)
  | .ok iopsPerGB =>
    let isEncrypted : Bool := getParam volumeParams "encrypted" == "true"
    let kmsKeyId := if isEncrypted then getParam volumeParams "kmsKeyId" else ""
    let opts0 : DiskOptions :=
      { capacityBytes := volSizeBytes
        tags := [(VolumeNameTagKey, volName)]
        volumeType := volumeType
        iopsPerGB := iopsPerGB
        availabilityZone := zone
        encrypted := isEncrypted
        kmsKeyID := kmsKeyId
        snapshotID := "" }
    let snapParse : Except CtrlErr String :=
      match req.volumeContentSource with
      | none => .ok ""
      | some (.snapshot (some s)) => .ok s.snapshotId
      | some (.snapshot none) =>
        .error (.status .invalidArgument "Error retrieving snapshot from the volumeContentSource")
      | some .otherType =>
        .error (.status .invalidArgument "Unsupported volumeContentSource type")
    match snapParse with
    | .error e => (.error e, st)
    | .ok snapID =>
      let opts := { opts0 with snapshotID := snapID }
      match d.cloud.createDisk st volName opts with
      | (.error _, st') =>
        (.error (.status .internal ("Could not create volume " ++ volName)), st')
      | (.ok disk, st') =>
        let fsType := getParam volumeParams "fsType"
        let disk := { disk with fsType := fsType }
        (.ok (newCreateVolumeResponse disk), st')

/-- controller.go lines 32-129: the CreateVolume handler. -/
def Driver.CreateVolume {σ : Type} (d : Driver σ) (st : σ)
    (req : CreateVolumeRequest) : Except CtrlErr CreateVolumeResponse × σ :=
  let volName := req.name
  if volName = "" then
    (.error (.status .invalidArgument "Volume name not provided"), st)
  else
    let volSize := reqVolSize req
    let volSizeBytes := RoundUpBytes volSize
    let maxVolSize := getLimitBytes req.capacityRange
    if maxVolSize > 0 ∧ maxVolSize < volSizeBytes then
      (.error (.status .invalidArgument "After round-up, volume size exceeds the limit specified"), st)
    else
      let volCaps := req.volumeCapabilities
      if volCaps.isEmpty then
        (.error (.status .invalidArgument "Volume capabilities not provided"), st)
      else if !(d.isValidVolumeCapabilities volCaps) then
        (.error (.status .invalidArgument "Volume capabilities not supported"), st)
      else
        match d.cloud.getDiskByName st volName volSizeBytes with
        | (_, some .errMultiDisks) =>
          (.error (.status .internal "multiple disks carry the requested name"), st)
        | (_, some .errDiskExistsDiffSize) =>
          (.error (.status .alreadyExists "disk with the requested name exists with a different size"), st)
        | (_, some .errAlreadyExists) =>
          (.error (.status .internal "unexpected provider error"), st)
        | (_, some .errTimeout) =>
          (.error (.status .internal "unexpected provider error"), st)
        | (diskOpt, some .errNotFound) | (diskOpt, none) =>
          match diskOpt with
          | some disk => (.ok (newCreateVolumeResponse disk), st)
          | none => d.createVolumeNewDisk st req volName volSizeBytes

/-- controller.go lines 131-147: the DeleteVolume handler. -/
def Driver.DeleteVolume {σ : Type} (d : Driver σ) (st : σ)
    (req : DeleteVolumeRequest) : Except CtrlErr DeleteVolumeResponse × σ :=
  let volumeID := req.volumeId
  if volumeID = "" then
    (.error (.status .invalidArgument "Volume ID not provided"), st)
  else
    match d.cloud.deleteDisk st volumeID with
    | (.error .errNotFound, st') => (.ok ⟨⟩, st')
    | (.error _, st') =>
      (.error (.status .internal ("Could not delete volume ID " ++ volumeID)), st')
    | (.ok _, st') => (.ok ⟨⟩, st')

/-- controller.go lines 149-193: the ControllerPublishVolume (attach)
handler. -/
def Driver.ControllerPublishVolume {σ : Type} (d : Driver σ) (st : σ)
    (req : ControllerPublishVolumeRequest) :
    Except CtrlErr ControllerPublishVolumeResponse × σ :=
  let volumeID := req.volumeId
  if volumeID = "" then
    (.error (.status .invalidArgument "Volume ID not provided"), st)
  else
    let nodeID := req.nodeId
    if nodeID = "" then
      (.error (.status .invalidArgument "Node ID not provided"), st)
    else
      match req.volumeCapability with
      | none => (.error (.status .invalidArgument "Volume capability not provided"), st)
      | some volCap =>
        if !(d.isValidVolumeCapabilities [volCap]) then
          (.error (.status .invalidArgument "Volume capability not supported"), st)
        else if !(d.cloud.isExistInstance st nodeID) then
          (.error (.status .notFound ("Instance " ++ nodeID ++ " not found")), st)
        else
          match (d.cloud.getDiskByID st volumeID).2 with
          | some .errNotFound => (.error (.status .notFound "Volume not found"), st)
          | some _ =>
            (.error (.status .internal ("Could not get volume with ID " ++ volumeID)), st)
          | none =>
            match d.cloud.attachDisk st volumeID nodeID with
            | (.error .errAlreadyExists, st') =>
              (.error (.status .alreadyExists "disk is already attached to another instance"), st')
            | (.error _, st') =>
              (.error (.status .internal ("Could not attach volume " ++ volumeID ++ " to node " ++ nodeID)), st')
            | (.ok devicePath, st') =>
              (.ok ⟨[("devicePath", devicePath)]⟩, st')

/-- controller.go lines 241-267: the ValidateVolumeCapabilities handler. -/
def Driver.ValidateVolumeCapabilities {σ : Type} (d : Driver σ) (st : σ)
    (req : ValidateVolumeCapabilitiesRequest) :
    Except CtrlErr ValidateVolumeCapabilitiesResponse × σ :=
  let volumeID := req.volumeId
  if volumeID = "" then
    (.error (.status .invalidArgument "Volume ID not provided"), st)
  else
    let volCaps := req.volumeCapabilities
    if volCaps.isEmpty then
      (.error (.status .invalidArgument "Volume capabilities not provided"), st)
    else
      match (d.cloud.getDiskByID st volumeID).2 with
      | some .errNotFound => (.error (.status .notFound "Volume not found"), st)
      | some _ =>
        (.error (.status .internal ("Could not get volume with ID " ++ volumeID)), st)
      | none =>
        let confirmed : Option ConfirmedCaps :=
          if d.isValidVolumeCapabilities volCaps then some ⟨volCaps⟩ else none
        (.ok ⟨confirmed⟩, st)

/-- controller.go lines 303-322: the tail of `CreateSnapshot` after the
name lookup, given the snapshot the provider reported (possibly nil). -/
def Driver.createSnapshotFound {σ : Type} (d : Driver σ) (st : σ)
    (snapshotName volumeID : String) (snapshotOpt : Option Snapshot) :
    Except CtrlErr CreateSnapshotResponse × σ :=
  match snapshotOpt with
  | some snapshot =>
    if snapshot.sourceVolumeID ≠ volumeID then
      (.error (.status .alreadyExists
        ("Snapshot " ++ snapshotName ++ " already exists for different volume (" ++ snapshot.sourceVolumeID ++ ")")), st)
    else
      (newCreateSnapshotResponse snapshot, st)
  | none =>
    let opts : SnapshotOptions := ⟨[(SnapshotNameTagKey, snapshotName)]⟩
    match d.cloud.createSnapshot st volumeID opts with
    | (.error _, st') =>
      (.error (.status .internal ("Could not create snapshot " ++ snapshotName)), st')
    | (.ok snapshot, st') => (newCreateSnapshotResponse snapshot, st')

/-- controller.go lines 288-322: the CreateSnapshot handler.  A provider
error other than `ErrNotFound` from the name lookup is returned raw
(line 301), not as a status error. -/
def Driver.CreateSnapshot {σ : Type} (d : Driver σ) (st : σ)
    (req : CreateSnapshotRequest) : Except CtrlErr CreateSnapshotResponse × σ :=
  let snapshotName := req.name
  if snapshotName = "" then
    (.error (.status .invalidArgument "Snapshot name not provided"), st)
  else
    let volumeID := req.sourceVolumeId
    if volumeID = "" then
      (.error (.status .invalidArgument "Snapshot volume source ID not provided"), st)
    else
      match d.cloud.getSnapshotByName st snapshotName with
      | (snapshotOpt, some .errNotFound) =>
        d.createSnapshotFound st snapshotName volumeID snapshotOpt
      | (_, some e) => (.error (.cloudErr e), st)
      | (snapshotOpt, none) =>
        d.createSnapshotFound st snapshotName volumeID snapshotOpt

/-- Modelled from the spec: the provider's observable state (`pkg/cloud`
is not under `src/`).  Disks and snapshots are recorded together with the
value of their name tag; attachments are (volume ID, instance ID, device
path) triples (spec §3). -/
structure CloudState where
  disks : List (String × Disk)
  snapshots : List (String × Snapshot)
  instances : List String
  attachments : List (String × String × String)
deriving DecidableEq, Repr

/-- Modelled from the spec: `GetDiskByName` (§4.1).  Zero name-tag matches
yield `ErrNotFound`; more than one, `ErrMultiDisks`; exactly one whose
capacity in bytes differs from the required bytes, `ErrDiskExistsDiffSize`. -/
def awsGetDiskByName (st : CloudState) (name : String) (capacityBytes : Int) :
    Option Disk × Option CloudErr :=
  match st.disks.filter (fun p => p.1 == name) with
  | [] => (none, some .errNotFound)
  | [p] =>
    if GiBToBytes p.2.capacityGiB = capacityBytes then (some p.2, none)
    else (none, some .errDiskExistsDiffSize)
  | _ :: _ :: _ => (none, some .errMultiDisks)

/-- Modelled from the spec: `GetDiskByID` (§4.1); `ErrNotFound` if absent. -/
def awsGetDiskByID (st : CloudState) (volumeID : String) :
    Option Disk × Option CloudErr :=
  match st.disks.find? (fun p => p.2.volumeID == volumeID) with
  | some p => (some p.2, none)
  | none => (none, some .errNotFound)

/-- Modelled from the spec: `CreateDisk` (§4.1).  Fails with
`ErrAlreadyExists` if a different-sized disk carries the name; otherwise
records a disk whose stored capacity is the whole-GiB count of the
requested bytes and whose volume ID is derived deterministically from the
name (name → ID stable and unique, §3 invariants).  The filesystem type is
not part of `DiskOptions` and is stored empty. -/
def awsCreateDisk (st : CloudState) (name : String) (opts : DiskOptions) :
    Except CloudErr Disk × CloudState :=
  let existing := st.disks.filter (fun p => p.1 == name)
  if existing.any (fun p => GiBToBytes p.2.capacityGiB != opts.capacityBytes) then
    (.error .errAlreadyExists, st)
  else
    let disk : Disk := ⟨"vol-" ++ name, BytesToGiB opts.capacityBytes, opts.availabilityZone, ""⟩
    (.ok disk, { st with disks := st.disks ++ [(name, disk)] })

/-- Modelled from the spec: `DeleteDisk` (§4.1); `ErrNotFound` if the disk
does not exist at call time. -/
def awsDeleteDisk (st : CloudState) (volumeID : String) :
    Except CloudErr Bool × CloudState :=
  if st.disks.any (fun p => p.2.volumeID == volumeID) then
    (.ok true, { st with disks := st.disks.filter (fun p => p.2.volumeID != volumeID) })
  else
    (.error .errNotFound, st)

/-- Modelled from the spec: the deterministic device-path alphabet used
for attachment slots (§4.1, truncated to a few entries). -/
def devNames : List String := ["/dev/xvdba", "/dev/xvdbb", "/dev/xvdbc"]

/-- Modelled from the spec: `AttachDisk` (§4.1).  Already attached to this
instance returns the existing device path; attached to a different
instance returns `ErrAlreadyExists`; otherwise the next unused device path
on the instance is allocated (exhaustion is modelled as a timeout). -/
def awsAttachDisk (st : CloudState) (volumeID instanceID : String) :
    Except CloudErr String × CloudState :=
  match st.attachments.find? (fun a => a.1 == volumeID) with
  | some a =>
    if a.2.1 == instanceID then (.ok a.2.2, st) else (.error .errAlreadyExists, st)
  | none =>
    let used := (st.attachments.filter (fun a => a.2.1 == instanceID)).map (fun a => a.2.2)
    match devNames.find? (fun p => !(used.contains p)) with
    | some path =>
      (.ok path, { st with attachments := st.attachments ++ [(volumeID, instanceID, path)] })
    | none => (.error .errTimeout, st)

/-- Modelled from the spec: `IsExistInstance` (§4.1). -/
def awsIsExistInstance (st : CloudState) (instanceID : String) : Bool :=
  st.instances.contains instanceID

/-- Modelled from the spec: `GetSnapshotByName` (§4.1), resolving by the
snapshot name tag; `ErrNotFound` if absent. -/
def awsGetSnapshotByName (st : CloudState) (name : String) :
    Option Snapshot × Option CloudErr :=
  match st.snapshots.find? (fun p => p.1 == name) with
  | some p => (some p.2, none)
  | none => (none, some .errNotFound)

/-- Modelled from the spec: `CreateSnapshot` (§4.1), with the same
name-tag discipline as disks; the snapshot ID is derived deterministically
from the name and the size from the source disk when it exists. -/
def awsCreateSnapshot (st : CloudState) (volumeID : String) (opts : SnapshotOptions) :
    Except CloudErr Snapshot × CloudState :=
  let name := (opts.tags.lookup SnapshotNameTagKey).getD ""
  let size :=
    match st.disks.find? (fun p => p.2.volumeID == volumeID) with
    | some p => GiBToBytes p.2.capacityGiB
    | none => 0
  let snap : Snapshot := ⟨"snap-" ++ name, volumeID, size, 0⟩
  (.ok snap, { st with snapshots := st.snapshots ++ [(name, snap)] })

/-- Modelled from the spec: the concrete cloud provider of §4.1. -/
def awsCloud : Cloud CloudState :=
  ⟨awsGetDiskByName, awsGetDiskByID, awsCreateDisk, awsDeleteDisk,
   awsAttachDisk, awsIsExistInstance, awsGetSnapshotByName, awsCreateSnapshot⟩

/-- Modelled from the spec: the driver's supported access modes
(`driver.go` is not under `src/`): single-node writer only (§4.2 step 3). -/
def stdVolumeCaps : List AccessMode := [.singleNodeWriter]

/-- The driver instance under verification: the controller service wired
to the §4.1 provider. -/
def stdDriver : Driver CloudState := ⟨awsCloud, stdVolumeCaps⟩

/-- A provider state with no disks, snapshots, instances or attachments. -/
def emptyState : CloudState := ⟨[], [], [], []⟩

/-- The single-node-writer mount capability used throughout the driver's
own tests (`controller_test.go` lines 30-39). -/
def stdCap : VolumeCapability := ⟨some .singleNodeWriter⟩

/-- A provider stub whose operations all fail with a timeout; used to
exercise the error-translation branches of the handlers. -/
def timeoutCloud : Cloud Unit :=
  ⟨fun _ _ _ => (none, some .errTimeout),
   fun _ _ => (none, some .errTimeout),
   fun s _ _ => (.error .errTimeout, s),
   fun s _ => (.error .errTimeout, s),
   fun s _ _ => (.error .errTimeout, s),
   fun _ _ => false,
   fun _ _ => (none, some .errTimeout),
   fun s _ _ => (.error .errTimeout, s)⟩

/-- A driver over the always-failing provider stub. -/
def timeoutDriver : Driver Unit := ⟨timeoutCloud, stdVolumeCaps⟩

/-! ### Arithmetic facts about the capacity conversions -/

theorem roundUpBytes_pos_spec (b : Int) (hb : 0 < b) :
    RoundUpBytes b % GiB = 0 ∧ RoundUpBytes b - GiB < b ∧ b ≤ RoundUpBytes b := by
  simp only [RoundUpBytes, GiB, DefaultVolumeSize]
  rw [if_neg (by omega)]
  omega

theorem giB_dvd_roundUpBytes (b : Int) : GiB ∣ RoundUpBytes b := by
  simp only [RoundUpBytes, DefaultVolumeSize]
  split
  · exact ⟨10, by ring⟩
  · exact ⟨_, rfl⟩

theorem giBToBytes_bytesToGiB (s : Int) (h : GiB ∣ s) :
    GiBToBytes (BytesToGiB s) = s := by
  simp only [GiBToBytes, BytesToGiB]
  exact Int.ediv_mul_cancel h

theorem roundUpBytes_default : RoundUpBytes DefaultVolumeSize = DefaultVolumeSize := by
  decide

theorem roundUpBytes_nonpos (b : Int) (hb : b ≤ 0) :
    RoundUpBytes b = DefaultVolumeSize := by
  simp only [RoundUpBytes]
  rw [if_pos hb]

/-! ### The capability filter as a list predicate -/

theorem foldl_hasSupport (supported : List AccessMode) (l : List VolumeCapability)
    (acc : Bool) :
    l.foldl (fun foundAll c => if !(hasSupport supported c) then false else foundAll) acc =
      (acc && l.all (fun c => hasSupport supported c)) := by
  induction l generalizing acc with
  | nil => simp
  | cons c rest ih =>
    rw [List.foldl_cons, List.all_cons, ih]
    cases hc : hasSupport supported c <;> cases acc <;> simp [hc]

theorem isValidVolumeCapabilities_eq_all {σ : Type} (d : Driver σ)
    (l : List VolumeCapability) :
    d.isValidVolumeCapabilities l = l.all (fun c => hasSupport d.volumeCaps c) := by
  unfold Driver.isValidVolumeCapabilities
  rw [foldl_hasSupport]
  simp

theorem isValid_iff_forall {σ : Type} (d : Driver σ) (l : List VolumeCapability) :
    d.isValidVolumeCapabilities l = true ↔
      ∀ c ∈ l, c.getModeOrUnknown ∈ d.volumeCaps := by
  rw [isValidVolumeCapabilities_eq_all]
  simp only [List.all_eq_true, hasSupport, List.any_eq_true, beq_iff_eq]
  constructor
  · intro h c hc
    obtain ⟨m, hm, he⟩ := h c hc
    exact he ▸ hm
  · intro h c hc
    exact ⟨c.getModeOrUnknown, h c hc, rfl⟩

/-! ### Characterizations of the modelled provider operations -/

theorem awsGetDiskByName_some (st : CloudState) (name : String) (bytes : Int)
    (disk : Disk) (eo : Option CloudErr)
    (h : awsGetDiskByName st name bytes = (some disk, eo)) :
    eo = none ∧ (∃ n, st.disks.filter (fun p => p.1 == name) = [(n, disk)]) ∧
      GiBToBytes disk.capacityGiB = bytes := by
  unfold awsGetDiskByName at h
  split at h
  · simp at h
  · next p heq =>
    split at h
    · next hsz =>
      simp only [Prod.mk.injEq, Option.some.injEq] at h
      obtain ⟨h1, h2⟩ := h
      subst h1
      subst h2
      exact ⟨rfl, ⟨p.1, heq⟩, hsz⟩
    · simp at h
  · simp at h

theorem awsGetDiskByName_none_none (st : CloudState) (name : String) (bytes : Int)
    (h : awsGetDiskByName st name bytes = (none, none)) : False := by
  unfold awsGetDiskByName at h
  split at h
  · simp at h
  · split at h <;> simp at h
  · simp at h

theorem awsGetDiskByName_notFound (st : CloudState) (name : String) (bytes : Int)
    (h : awsGetDiskByName st name bytes = (none, some .errNotFound)) :
    st.disks.filter (fun p => p.1 == name) = [] := by
  unfold awsGetDiskByName at h
  split at h
  · next heq => exact heq
  · split at h <;> simp at h
  · simp at h

theorem awsGetDiskByName_of_filter_eq (st : CloudState) (name : String)
    (n : String) (disk : Disk) (bytes : Int)
    (hf : st.disks.filter (fun p => p.1 == name) = [(n, disk)])
    (hsz : GiBToBytes disk.capacityGiB = bytes) :
    awsGetDiskByName st name bytes = (some disk, none) := by
  unfold awsGetDiskByName
  rw [hf]
  simp [hsz]

theorem awsGetDiskByName_of_filter_ne (st : CloudState) (name : String)
    (n : String) (disk : Disk) (bytes : Int)
    (hf : st.disks.filter (fun p => p.1 == name) = [(n, disk)])
    (hsz : GiBToBytes disk.capacityGiB ≠ bytes) :
    awsGetDiskByName st name bytes = (none, some .errDiskExistsDiffSize) := by
  unfold awsGetDiskByName
  rw [hf]
  simp [hsz]

theorem awsGetDiskByName_of_filter_nil (st : CloudState) (name : String) (bytes : Int)
    (hf : st.disks.filter (fun p => p.1 == name) = []) :
    awsGetDiskByName st name bytes = (none, some .errNotFound) := by
  unfold awsGetDiskByName
  rw [hf]

theorem awsCreateDisk_ok (st st' : CloudState) (name : String) (opts : DiskOptions)
    (disk : Disk) (h : awsCreateDisk st name opts = (.ok disk, st')) :
    disk = ⟨"vol-" ++ name, BytesToGiB opts.capacityBytes, opts.availabilityZone, ""⟩ ∧
      st' = { st with disks := st.disks ++ [(name, disk)] } := by
  simp only [awsCreateDisk] at h
  split at h
  · simp at h
  · simp only [Prod.mk.injEq, Except.ok.injEq] at h
    obtain ⟨h1, h2⟩ := h
    subst h1
    exact ⟨rfl, h2.symm⟩

/-- The validation preconditions of CreateVolume (controller.go lines 34-58). -/
def reqValid {σ : Type} (d : Driver σ) (req : CreateVolumeRequest) : Prop :=
  req.name ≠ "" ∧
  ¬(getLimitBytes req.capacityRange > 0 ∧
      getLimitBytes req.capacityRange < RoundUpBytes (reqVolSize req)) ∧
  req.volumeCapabilities.isEmpty = false ∧
  d.isValidVolumeCapabilities req.volumeCapabilities = true

instance {σ : Type} (d : Driver σ) (req : CreateVolumeRequest) :
    Decidable (reqValid d req) := by
  unfold reqValid
  infer_instance

theorem createVolume_found_run {σ : Type} (d : Driver σ) (st : σ)
    (req : CreateVolumeRequest) (disk : Disk)
    (hv : reqValid d req)
    (hget : d.cloud.getDiskByName st req.name (RoundUpBytes (reqVolSize req)) =
      (some disk, none)) :
    d.CreateVolume st req = (.ok (newCreateVolumeResponse disk), st) := by
  obtain ⟨h1, h2, h3, h4⟩ := hv
  simp only [Driver.CreateVolume]
  rw [if_neg h1, if_neg h2]
  simp [h3, h4, hget]

theorem createVolume_conflict_run {σ : Type} (d : Driver σ) (st : σ)
    (req : CreateVolumeRequest)
    (hv : reqValid d req)
    (hget : d.cloud.getDiskByName st req.name (RoundUpBytes (reqVolSize req)) =
      (none, some .errDiskExistsDiffSize)) :
    d.CreateVolume st req =
      (.error (.status .alreadyExists "disk with the requested name exists with a different size"), st) := by
  obtain ⟨h1, h2, h3, h4⟩ := hv
  simp only [Driver.CreateVolume]
  rw [if_neg h1, if_neg h2]
  simp [h3, h4, hget]

theorem createVolume_create_run_aws (st : CloudState) (req : CreateVolumeRequest)
    (hv : reqValid stdDriver req)
    (hfil : st.disks.filter (fun p => p.1 == req.name) = [])
    (htype : getParam req.parameters "type" ≠ VolumeTypeIO1)
    (hsrc : req.volumeContentSource = none) :
    stdDriver.CreateVolume st req =
      (.ok (newCreateVolumeResponse
        ⟨"vol-" ++ req.name, BytesToGiB (RoundUpBytes (reqVolSize req)),
          pickAvailabilityZone req.accessibilityRequirements,
          getParam req.parameters "fsType"⟩),
       { st with disks := st.disks ++
          [(req.name,
            ⟨"vol-" ++ req.name, BytesToGiB (RoundUpBytes (reqVolSize req)),
              pickAvailabilityZone req.accessibilityRequirements, ""⟩)] }) := by
  obtain ⟨h1, h2, h3, h4⟩ := hv
  have hget : stdDriver.cloud.getDiskByName st req.name (RoundUpBytes (reqVolSize req)) =
      (none, some .errNotFound) :=
    awsGetDiskByName_of_filter_nil st req.name (RoundUpBytes (reqVolSize req)) hfil
  simp only [Driver.CreateVolume]
  rw [if_neg h1, if_neg h2]
  simp only [h3, h4, hget, Bool.false_eq_true, if_false, Bool.not_true]
  simp only [Driver.createVolumeNewDisk]
  rw [if_neg htype]
  simp only [hsrc]
  simp only [stdDriver, awsCloud]
  simp [awsCreateDisk, hfil]

theorem stdCloud_getDiskByName : stdDriver.cloud.getDiskByName = awsGetDiskByName := rfl

theorem stdCloud_createDisk : stdDriver.cloud.createDisk = awsCreateDisk := rfl

theorem stdCloud_deleteDisk : stdDriver.cloud.deleteDisk = awsDeleteDisk := rfl

theorem createVolumeNewDisk_ok_shape (st st1 : CloudState) (req : CreateVolumeRequest)
    (resp : CreateVolumeResponse)
    (hfil : st.disks.filter (fun p => p.1 == req.name) = [])
    (h : stdDriver.createVolumeNewDisk st req req.name (RoundUpBytes (reqVolSize req)) =
      (.ok resp, st1)) :
    ∃ n disk,
      st1.disks.filter (fun p => p.1 == req.name) = [(n, disk)] ∧
      GiBToBytes disk.capacityGiB = RoundUpBytes (reqVolSize req) ∧
      resp.volume.volumeId = disk.volumeID ∧
      resp.volume.capacityBytes = GiBToBytes disk.capacityGiB := by
  simp only [Driver.createVolumeNewDisk] at h
  split at h
  · simp at h
  split at h
  · simp at h
  split at h
  · simp at h
  next disk0 st2 heq =>
  rw [stdCloud_createDisk] at heq
  obtain ⟨hd0, hst2⟩ := awsCreateDisk_ok st st2 req.name _ disk0 heq
  simp only [Prod.mk.injEq, Except.ok.injEq] at h
  obtain ⟨hresp, hst⟩ := h
  subst hresp
  subst hst
  subst hst2
  refine ⟨req.name, disk0, ?_, ?_, ?_, ?_⟩
  · simp only [List.filter_append, hfil, List.nil_append, List.filter_cons]
    simp
  · rw [hd0]
    exact giBToBytes_bytesToGiB _ (giB_dvd_roundUpBytes _)
  · simp [newCreateVolumeResponse]
  · simp [newCreateVolumeResponse]

theorem createVolume_ok_shape (st st1 : CloudState) (req : CreateVolumeRequest)
    (resp : CreateVolumeResponse)
    (h : stdDriver.CreateVolume st req = (.ok resp, st1)) :
    reqValid stdDriver req ∧
    ∃ n disk,
      st1.disks.filter (fun p => p.1 == req.name) = [(n, disk)] ∧
      GiBToBytes disk.capacityGiB = RoundUpBytes (reqVolSize req) ∧
      resp.volume.volumeId = disk.volumeID ∧
      resp.volume.capacityBytes = GiBToBytes disk.capacityGiB := by
  simp only [Driver.CreateVolume] at h
  split at h
  · simp at h
  next h1 =>
  split at h
  · simp at h
  next h2 =>
  split at h
  · simp at h
  next h3 =>
  split at h
  · simp at h
  next h4 =>
  have hval : reqValid stdDriver req := ⟨h1, h2, by simpa using h3, by simpa using h4⟩
  split at h
  case _ => simp at h
  case _ => simp at h
  case _ => simp at h
  case _ => simp at h
  case _ x diskOpt heq =>
    refine ⟨hval, ?_⟩
    rw [stdCloud_getDiskByName] at heq
    rcases diskOpt with _ | disk
    · have hfil := awsGetDiskByName_notFound _ _ _ heq
      simp only [] at h
      exact createVolumeNewDisk_ok_shape st st1 req resp hfil h
    · obtain ⟨hcontra, -, -⟩ := awsGetDiskByName_some _ _ _ _ _ heq
      simp at hcontra
  case _ x diskOpt heq =>
    refine ⟨hval, ?_⟩
    rw [stdCloud_getDiskByName] at heq
    rcases diskOpt with _ | disk
    · exact absurd heq (fun hh => awsGetDiskByName_none_none _ _ _ hh)
    · obtain ⟨-, ⟨n, hfil⟩, hsz⟩ := awsGetDiskByName_some _ _ _ _ _ heq
      simp only [Prod.mk.injEq, Except.ok.injEq] at h
      obtain ⟨hresp, hst⟩ := h
      subst hresp
      subst hst
      exact ⟨n, disk, hfil, hsz, rfl, rfl⟩

/-- C1: CreateVolume is idempotent: whenever a CreateVolume call succeeds,
repeating it with the identical request against the resulting provider
state succeeds again, returns the same volume ID and capacity, and leaves
the provider state unchanged (the existing disk is returned rather than a
new one created). -/
theorem createVolume_idempotent (st st1 : CloudState) (req : CreateVolumeRequest)
    (resp1 : CreateVolumeResponse)
    (h : stdDriver.CreateVolume st req = (.ok resp1, st1)) :
    ∃ resp2 : CreateVolumeResponse,
      stdDriver.CreateVolume st1 req = (.ok resp2, st1) ∧
      resp2.volume.volumeId = resp1.volume.volumeId ∧
      resp2.volume.capacityBytes = resp1.volume.capacityBytes := by
  obtain ⟨hv, n, disk, hfil, hsz, hid, hcap⟩ := createVolume_ok_shape st st1 req resp1 h
  refine ⟨newCreateVolumeResponse disk, ?_, ?_, ?_⟩
  · refine createVolume_found_run stdDriver st1 req disk hv ?_
    rw [stdCloud_getDiskByName]
    exact awsGetDiskByName_of_filter_eq st1 req.name n disk _ hfil hsz
  · simp [newCreateVolumeResponse, hid]
  · simp [newCreateVolumeResponse, hcap]

def w1req : CreateVolumeRequest := ⟨"test-vol", some ⟨5 * GiB, 0⟩, [stdCap], [], none, none⟩

def w1disk : Disk := ⟨"vol-test-vol", 5, "", ""⟩

def w1resp : CreateVolumeResponse := newCreateVolumeResponse w1disk

def w1st : CloudState := ⟨[("test-vol", w1disk)], [], [], []⟩

/-- C1 witness at a concrete input. -/
theorem createVolume_idempotent_witness :
    ∃ resp2 : CreateVolumeResponse,
      stdDriver.CreateVolume w1st w1req = (.ok resp2, w1st) ∧
      resp2.volume.volumeId = w1resp.volume.volumeId ∧
      resp2.volume.capacityBytes = w1resp.volume.capacityBytes :=
  createVolume_idempotent emptyState w1st w1req w1resp (by decide)

def c2req1 : CreateVolumeRequest := ⟨"test-vol", some ⟨GiB, 0⟩, [stdCap], [], none, none⟩

def c2req2 : CreateVolumeRequest := ⟨"test-vol", some ⟨10000, 0⟩, [stdCap], [], none, none⟩

/-- C2 counterexample: CreateVolume("test-vol", 1 GiB) followed by
CreateVolume("test-vol", 10000 bytes) does NOT return AlreadyExists on the
second call: 10000 bytes rounds up to the same 1 GiB, so the second call
takes the idempotent path and succeeds. -/
theorem createVolume_conflict_counterexample :
    resultCode (stdDriver.CreateVolume emptyState c2req1).1 = Code.ok ∧
    resultCode (stdDriver.CreateVolume (stdDriver.CreateVolume emptyState c2req1).2 c2req2).1 = Code.ok ∧
    Code.ok ≠ Code.alreadyExists := by decide

/-- C2 (amended): after a successful CreateVolume, a second CreateVolume
with the same name whose requested size rounds up to a DIFFERENT capacity
(and whose limit check passes) returns AlreadyExists. -/
theorem createVolume_conflict_roundedSizes (st st1 : CloudState)
    (req : CreateVolumeRequest) (resp1 : CreateVolumeResponse) (size2 limit2 : Int)
    (h : stdDriver.CreateVolume st req = (.ok resp1, st1))
    (hsz : RoundUpBytes size2 ≠ resp1.volume.capacityBytes)
    (hlim : ¬(limit2 > 0 ∧ limit2 < RoundUpBytes size2)) :
    resultCode (stdDriver.CreateVolume st1
      { req with capacityRange := some ⟨size2, limit2⟩ }).1 = Code.alreadyExists := by
  obtain ⟨⟨h1, h2, h3, h4⟩, n, disk, hfil, hszd, hid, hcap⟩ :=
    createVolume_ok_shape st st1 req resp1 h
  have hv2 : reqValid stdDriver { req with capacityRange := some ⟨size2, limit2⟩ } := by
    refine ⟨h1, ?_, h3, h4⟩
    simpa [getLimitBytes, reqVolSize] using hlim
  have hget : stdDriver.cloud.getDiskByName st1 req.name (RoundUpBytes size2) =
      (none, some .errDiskExistsDiffSize) := by
    rw [stdCloud_getDiskByName]
    refine awsGetDiskByName_of_filter_ne st1 req.name n disk _ hfil ?_
    intro hc
    rw [hc] at hcap
    exact hsz hcap.symm
  have hrun := createVolume_conflict_run stdDriver st1
    { req with capacityRange := some ⟨size2, limit2⟩ } hv2 (by simpa [reqVolSize] using hget)
  rw [hrun]
  rfl

/-- C2 (amended) witness: 5 GiB then 10000 bytes (the driver's own test
case) yields AlreadyExists on the second call. -/
theorem createVolume_conflict_roundedSizes_witness :
    resultCode (stdDriver.CreateVolume w1st
      { w1req with capacityRange := some ⟨10000, 0⟩ }).1 = Code.alreadyExists :=
  createVolume_conflict_roundedSizes emptyState w1st w1req w1resp 10000 0
    (by decide) (by decide) (by decide)

/-- C3: for a positive requested byte count B, the capacity C in a
successful CreateVolume response is a multiple of 1 GiB with
C - GiB < B and B <= C. -/
theorem createVolume_roundUp_law (st st1 : CloudState) (req : CreateVolumeRequest)
    (resp : CreateVolumeResponse) (cr : CapacityRange)
    (hcr : req.capacityRange = some cr) (hpos : 0 < cr.requiredBytes)
    (h : stdDriver.CreateVolume st req = (.ok resp, st1)) :
    resp.volume.capacityBytes % GiB = 0 ∧
    resp.volume.capacityBytes - GiB < cr.requiredBytes ∧
    cr.requiredBytes ≤ resp.volume.capacityBytes := by
  obtain ⟨-, n, disk, -, hszd, -, hcap⟩ := createVolume_ok_shape st st1 req resp h
  have hc : resp.volume.capacityBytes = RoundUpBytes cr.requiredBytes := by
    rw [hcap, hszd]
    simp [reqVolSize, hcr]
  rw [hc]
  exact roundUpBytes_pos_spec cr.requiredBytes hpos

def w3req : CreateVolumeRequest := ⟨"vol-test", some ⟨1073741825, 0⟩, [stdCap], [], none, none⟩

def w3disk : Disk := ⟨"vol-vol-test", 2, "", ""⟩

def w3resp : CreateVolumeResponse := newCreateVolumeResponse w3disk

def w3st : CloudState := ⟨[("vol-test", w3disk)], [], [], []⟩

/-- C3 witness: a request of 1 GiB + 1 byte yields capacity 2 GiB
(2147483648 bytes), satisfying the round-up law. -/
theorem createVolume_roundUp_law_witness :
    (w3resp.volume.capacityBytes % GiB = 0 ∧
     w3resp.volume.capacityBytes - GiB < 1073741825 ∧
     (1073741825 : Int) ≤ w3resp.volume.capacityBytes) ∧
    w3resp.volume.capacityBytes = 2147483648 :=
  ⟨createVolume_roundUp_law emptyState w3st w3req w3resp ⟨1073741825, 0⟩ rfl
    (by decide) (by decide), by decide⟩

/-- C4: with no capacity range, or with a zero-or-negative required-bytes
value, a successful CreateVolume uses (and returns) the 10 GiB default. -/
theorem createVolume_default_size (st st1 : CloudState) (req : CreateVolumeRequest)
    (resp : CreateVolumeResponse)
    (hdef : req.capacityRange = none ∨
      ∃ cr, req.capacityRange = some cr ∧ cr.requiredBytes ≤ 0)
    (h : stdDriver.CreateVolume st req = (.ok resp, st1)) :
    resp.volume.capacityBytes = DefaultVolumeSize := by
  obtain ⟨-, n, disk, -, hszd, -, hcap⟩ := createVolume_ok_shape st st1 req resp h
  rw [hcap, hszd]
  rcases hdef with hnone | ⟨cr, hsome, hle⟩
  · simp [reqVolSize, hnone, roundUpBytes_default]
  · have hrv : reqVolSize req = cr.requiredBytes := by simp [reqVolSize, hsome]
    rw [hrv, roundUpBytes_nonpos _ hle]

def w4reqA : CreateVolumeRequest := ⟨"vol-test", none, [stdCap], [], none, none⟩

def w4disk : Disk := ⟨"vol-vol-test", 10, "", ""⟩

def w4resp : CreateVolumeResponse := newCreateVolumeResponse w4disk

def w4st : CloudState := ⟨[("vol-test", w4disk)], [], [], []⟩

def w4reqB : CreateVolumeRequest := ⟨"zero-vol", some ⟨0, 0⟩, [stdCap], [], none, none⟩

def w4diskB : Disk := ⟨"vol-zero-vol", 10, "", ""⟩

def w4respB : CreateVolumeResponse := newCreateVolumeResponse w4diskB

def w4stB : CloudState := ⟨[("zero-vol", w4diskB)], [], [], []⟩

/-- C4 witness: a request without a capacity range and a request with
required-bytes 0 both yield the 10 GiB default capacity. -/
theorem createVolume_default_size_witness :
    w4resp.volume.capacityBytes = DefaultVolumeSize ∧
    w4respB.volume.capacityBytes = DefaultVolumeSize :=
  ⟨createVolume_default_size emptyState w4st w4reqA w4resp (Or.inl rfl) (by decide),
   createVolume_default_size emptyState w4stB w4reqB w4respB
     (Or.inr ⟨⟨0, 0⟩, rfl, by decide⟩) (by decide)⟩

/-- C5: ValidateVolumeCapabilities rejects an empty volume ID or an empty
capability list with InvalidArgument, reports NotFound for a missing disk,
and otherwise succeeds, echoing the supplied capabilities as confirmed
exactly when every supplied access mode is in the driver's supported set
(and returning an empty confirmation, not an error, otherwise). -/
theorem validateVolumeCapabilities_spec :
    (∀ (σ : Type) (d : Driver σ) (st : σ) (req : ValidateVolumeCapabilitiesRequest),
      req.volumeId = "" →
      resultCode (d.ValidateVolumeCapabilities st req).1 = Code.invalidArgument) ∧
    (∀ (σ : Type) (d : Driver σ) (st : σ) (req : ValidateVolumeCapabilitiesRequest),
      req.volumeId ≠ "" → req.volumeCapabilities.isEmpty = true →
      resultCode (d.ValidateVolumeCapabilities st req).1 = Code.invalidArgument) ∧
    (∀ (σ : Type) (d : Driver σ) (st : σ) (req : ValidateVolumeCapabilitiesRequest),
      req.volumeId ≠ "" → req.volumeCapabilities.isEmpty = false →
      (d.cloud.getDiskByID st req.volumeId).2 = some .errNotFound →
      resultCode (d.ValidateVolumeCapabilities st req).1 = Code.notFound) ∧
    (∀ (σ : Type) (d : Driver σ) (st : σ) (req : ValidateVolumeCapabilitiesRequest),
      req.volumeId ≠ "" → req.volumeCapabilities.isEmpty = false →
      (d.cloud.getDiskByID st req.volumeId).2 = none →
      d.ValidateVolumeCapabilities st req =
        (.ok ⟨if d.isValidVolumeCapabilities req.volumeCapabilities then
            some ⟨req.volumeCapabilities⟩ else none⟩, st)) ∧
    (∀ (σ : Type) (d : Driver σ) (l : List VolumeCapability),
      d.isValidVolumeCapabilities l = true ↔
        ∀ c ∈ l, c.getModeOrUnknown ∈ d.volumeCaps) := by
  refine ⟨?_, ?_, ?_, ?_, ?_⟩
  · intro σ d st req h
    simp only [Driver.ValidateVolumeCapabilities]
    rw [if_pos h]
    rfl
  · intro σ d st req h1 h2
    simp only [Driver.ValidateVolumeCapabilities]
    rw [if_neg h1]
    simp [h2]
    rfl
  · intro σ d st req h1 h2 h3
    simp only [Driver.ValidateVolumeCapabilities]
    rw [if_neg h1]
    simp [h2, h3]
    rfl
  · intro σ d st req h1 h2 h3
    simp only [Driver.ValidateVolumeCapabilities]
    rw [if_neg h1]
    simp [h2, h3]
  · intro σ d l
    exact isValid_iff_forall d l

def w5st : CloudState := ⟨[("v", ⟨"vol-v", 5, "", ""⟩)], [], [], []⟩

def badCap : VolumeCapability := ⟨some .multiNodeMultiWriter⟩

/-- C5 witness at concrete inputs, exercising every branch. -/
theorem validateVolumeCapabilities_spec_witness :
    resultCode (stdDriver.ValidateVolumeCapabilities emptyState ⟨"", [stdCap]⟩).1 = Code.invalidArgument ∧
    resultCode (stdDriver.ValidateVolumeCapabilities emptyState ⟨"vol-v", []⟩).1 = Code.invalidArgument ∧
    resultCode (stdDriver.ValidateVolumeCapabilities emptyState ⟨"vol-v", [stdCap]⟩).1 = Code.notFound ∧
    stdDriver.ValidateVolumeCapabilities w5st ⟨"vol-v", [stdCap]⟩ = (.ok ⟨some ⟨[stdCap]⟩⟩, w5st) ∧
    stdDriver.ValidateVolumeCapabilities w5st ⟨"vol-v", [badCap]⟩ = (.ok ⟨none⟩, w5st) ∧
    (stdDriver.isValidVolumeCapabilities [stdCap] = true ↔
      ∀ c ∈ [stdCap], c.getModeOrUnknown ∈ stdDriver.volumeCaps) := by
  refine ⟨?_, ?_, ?_, ?_, ?_, ?_⟩
  · exact validateVolumeCapabilities_spec.1 CloudState stdDriver emptyState ⟨"", [stdCap]⟩ rfl
  · exact validateVolumeCapabilities_spec.2.1 CloudState stdDriver emptyState ⟨"vol-v", []⟩ (by decide) rfl
  · exact validateVolumeCapabilities_spec.2.2.1 CloudState stdDriver emptyState ⟨"vol-v", [stdCap]⟩ (by decide) rfl (by decide)
  · rw [validateVolumeCapabilities_spec.2.2.2.1 CloudState stdDriver w5st ⟨"vol-v", [stdCap]⟩ (by decide) rfl (by decide)]
    decide
  · rw [validateVolumeCapabilities_spec.2.2.2.1 CloudState stdDriver w5st ⟨"vol-v", [badCap]⟩ (by decide) rfl (by decide)]
    decide
  · exact validateVolumeCapabilities_spec.2.2.2.2 CloudState stdDriver [stdCap]

/-- C6: DeleteVolume rejects an empty volume ID with InvalidArgument,
treats a provider ErrNotFound as success, translates any other provider
error to Internal, and hence deleting the same volume twice (against the
modelled provider) succeeds both times. -/
theorem deleteVolume_spec :
    (∀ (σ : Type) (d : Driver σ) (st : σ) (req : DeleteVolumeRequest),
      req.volumeId = "" →
      resultCode (d.DeleteVolume st req).1 = Code.invalidArgument) ∧
    (∀ (σ : Type) (d : Driver σ) (st st2 : σ) (req : DeleteVolumeRequest),
      req.volumeId ≠ "" →
      d.cloud.deleteDisk st req.volumeId = (.error .errNotFound, st2) →
      (d.DeleteVolume st req).1 = .ok ⟨⟩) ∧
    (∀ (σ : Type) (d : Driver σ) (st st2 : σ) (req : DeleteVolumeRequest) (e : CloudErr),
      req.volumeId ≠ "" → e ≠ .errNotFound →
      d.cloud.deleteDisk st req.volumeId = (.error e, st2) →
      resultCode (d.DeleteVolume st req).1 = Code.internal) ∧
    (∀ (st : CloudState) (req : DeleteVolumeRequest), req.volumeId ≠ "" →
      resultCode (stdDriver.DeleteVolume st req).1 = Code.ok ∧
      resultCode (stdDriver.DeleteVolume (stdDriver.DeleteVolume st req).2 req).1 = Code.ok) := by
  have haux : ∀ (st : CloudState) (req : DeleteVolumeRequest), req.volumeId ≠ "" →
      resultCode (stdDriver.DeleteVolume st req).1 = Code.ok := by
    intro st req hne
    simp only [Driver.DeleteVolume, stdCloud_deleteDisk]
    rw [if_neg hne]
    by_cases hd : st.disks.any (fun p => p.2.volumeID == req.volumeId)
    · simp [awsDeleteDisk, hd]
      rfl
    · simp [awsDeleteDisk, hd]
      rfl
  refine ⟨?_, ?_, ?_, ?_⟩
  · intro σ d st req h
    simp only [Driver.DeleteVolume]
    rw [if_pos h]
    rfl
  · intro σ d st st2 req h1 h2
    simp only [Driver.DeleteVolume]
    rw [if_neg h1, h2]
  · intro σ d st st2 req e h1 he h2
    simp only [Driver.DeleteVolume]
    rw [if_neg h1, h2]
    cases e
    · exact absurd rfl he
    all_goals rfl
  · intro st req hne
    exact ⟨haux st req hne, haux _ req hne⟩

/-- C6 witness: the empty-ID rejection, not-found-as-success, foreign-error
translation, and double deletion at concrete inputs. -/
theorem deleteVolume_spec_witness :
    resultCode (stdDriver.DeleteVolume emptyState ⟨""⟩).1 = Code.invalidArgument ∧
    (stdDriver.DeleteVolume emptyState ⟨"vol-x"⟩).1 = .ok ⟨⟩ ∧
    resultCode (timeoutDriver.DeleteVolume () ⟨"vol-x"⟩).1 = Code.internal ∧
    (resultCode (stdDriver.DeleteVolume w1st ⟨"vol-test-vol"⟩).1 = Code.ok ∧
      resultCode (stdDriver.DeleteVolume (stdDriver.DeleteVolume w1st ⟨"vol-test-vol"⟩).2 ⟨"vol-test-vol"⟩).1 = Code.ok) := by
  refine ⟨?_, ?_, ?_, ?_⟩
  · exact deleteVolume_spec.1 CloudState stdDriver emptyState ⟨""⟩ rfl
  · exact deleteVolume_spec.2.1 CloudState stdDriver emptyState emptyState ⟨"vol-x"⟩ (by decide) (by decide)
  · exact deleteVolume_spec.2.2.1 Unit timeoutDriver () () ⟨"vol-x"⟩ .errTimeout (by decide) (by decide) rfl
  · exact deleteVolume_spec.2.2.2 w1st ⟨"vol-test-vol"⟩ (by decide)

/-- C7: CreateSnapshot rejects an empty name or empty source volume ID
with InvalidArgument; when a snapshot with the name already exists with a
matching source volume it is returned unchanged with ReadyToUse = true;
when it exists with a different source volume the call fails with
AlreadyExists. -/
theorem createSnapshot_spec :
    (∀ (σ : Type) (d : Driver σ) (st : σ) (req : CreateSnapshotRequest),
      req.name = "" →
      resultCode (d.CreateSnapshot st req).1 = Code.invalidArgument) ∧
    (∀ (σ : Type) (d : Driver σ) (st : σ) (req : CreateSnapshotRequest),
      req.name ≠ "" → req.sourceVolumeId = "" →
      resultCode (d.CreateSnapshot st req).1 = Code.invalidArgument) ∧
    (∀ (σ : Type) (d : Driver σ) (st : σ) (req : CreateSnapshotRequest) (snap : Snapshot),
      req.name ≠ "" → req.sourceVolumeId ≠ "" →
      d.cloud.getSnapshotByName st req.name = (some snap, none) →
      snap.sourceVolumeID = req.sourceVolumeId →
      d.CreateSnapshot st req =
        (.ok ⟨⟨snap.snapshotID, snap.sourceVolumeID, snap.size, snap.creationTime, true⟩⟩, st)) ∧
    (∀ (σ : Type) (d : Driver σ) (st : σ) (req : CreateSnapshotRequest)
        (snap : Snapshot) (eo : Option CloudErr),
      req.name ≠ "" → req.sourceVolumeId ≠ "" →
      (eo = none ∨ eo = some .errNotFound) →
      d.cloud.getSnapshotByName st req.name = (some snap, eo) →
      snap.sourceVolumeID ≠ req.sourceVolumeId →
      resultCode (d.CreateSnapshot st req).1 = Code.alreadyExists) := by
  refine ⟨?_, ?_, ?_, ?_⟩
  · intro σ d st req h
    simp only [Driver.CreateSnapshot]
    rw [if_pos h]
    rfl
  · intro σ d st req h1 h2
    simp only [Driver.CreateSnapshot]
    rw [if_neg h1, if_pos h2]
    rfl
  · intro σ d st req snap h1 h2 hget hmatch
    simp only [Driver.CreateSnapshot]
    rw [if_neg h1, if_neg h2, hget]
    simp only [Driver.createSnapshotFound]
    rw [if_neg (not_not_intro hmatch)]
    rfl
  · intro σ d st req snap eo h1 h2 heo hget hne
    simp only [Driver.CreateSnapshot]
    rw [if_neg h1, if_neg h2, hget]
    rcases heo with he | he <;> subst he <;>
      · simp only [Driver.createSnapshotFound]
        rw [if_pos hne]
        rfl

def wSnapSt : CloudState := ⟨[], [("s1", ⟨"snap-s1", "vol-a", 0, 0⟩)], [], []⟩

/-- C7 witness at concrete inputs: both rejections, the idempotent return
with ReadyToUse, and the conflicting-source AlreadyExists. -/
theorem createSnapshot_spec_witness :
    resultCode (stdDriver.CreateSnapshot emptyState ⟨"", "vol-a", []⟩).1 = Code.invalidArgument ∧
    resultCode (stdDriver.CreateSnapshot emptyState ⟨"s1", "", []⟩).1 = Code.invalidArgument ∧
    stdDriver.CreateSnapshot wSnapSt ⟨"s1", "vol-a", []⟩ =
      (.ok ⟨⟨"snap-s1", "vol-a", 0, 0, true⟩⟩, wSnapSt) ∧
    resultCode (stdDriver.CreateSnapshot wSnapSt ⟨"s1", "vol-b", []⟩).1 = Code.alreadyExists := by
  refine ⟨?_, ?_, ?_, ?_⟩
  · exact createSnapshot_spec.1 CloudState stdDriver emptyState ⟨"", "vol-a", []⟩ rfl
  · exact createSnapshot_spec.2.1 CloudState stdDriver emptyState ⟨"s1", "", []⟩ (by decide) rfl
  · exact createSnapshot_spec.2.2.1 CloudState stdDriver wSnapSt ⟨"s1", "vol-a", []⟩
      ⟨"snap-s1", "vol-a", 0, 0⟩ (by decide) (by decide) (by decide) rfl
  · exact createSnapshot_spec.2.2.2 CloudState stdDriver wSnapSt ⟨"s1", "vol-b", []⟩
      ⟨"snap-s1", "vol-a", 0, 0⟩ none (by decide) (by decide) (Or.inl rfl) (by decide) (by decide)

/-- A provider stub that resolves instances and disks but fails AttachDisk
with a timeout; exercises the Internal branch of the attach translation. -/
def attachFailCloud : Cloud Unit :=
  ⟨fun _ _ _ => (some ⟨"vol-v", 1, "", ""⟩, none),
   fun _ _ => (some ⟨"vol-v", 1, "", ""⟩, none),
   fun s _ _ => (.ok ⟨"vol-v", 1, "", ""⟩, s),
   fun s _ => (.ok true, s),
   fun s _ _ => (.error .errTimeout, s),
   fun _ _ => true,
   fun _ _ => (none, some .errNotFound),
   fun s _ _ => (.error .errTimeout, s)⟩

/-- A driver over the attach-failing provider stub. -/
def attachFailDriver : Driver Unit := ⟨attachFailCloud, stdVolumeCaps⟩

/-- C8: ControllerPublishVolume rejects a missing volume ID, node ID or
capability (or an unsupported capability) with InvalidArgument; reports
NotFound for a non-existent instance or disk; translates an AttachDisk
ErrAlreadyExists to AlreadyExists and any other attach failure to
Internal; and on success returns a publish context whose sole entry is the
provider-reported device path under the key devicePath. -/
theorem controllerPublishVolume_spec :
    (∀ (σ : Type) (d : Driver σ) (st : σ) (req : ControllerPublishVolumeRequest),
      req.volumeId = "" →
      resultCode (d.ControllerPublishVolume st req).1 = Code.invalidArgument) ∧
    (∀ (σ : Type) (d : Driver σ) (st : σ) (req : ControllerPublishVolumeRequest),
      req.volumeId ≠ "" → req.nodeId = "" →
      resultCode (d.ControllerPublishVolume st req).1 = Code.invalidArgument) ∧
    (∀ (σ : Type) (d : Driver σ) (st : σ) (req : ControllerPublishVolumeRequest),
      req.volumeId ≠ "" → req.nodeId ≠ "" → req.volumeCapability = none →
      resultCode (d.ControllerPublishVolume st req).1 = Code.invalidArgument) ∧
    (∀ (σ : Type) (d : Driver σ) (st : σ) (req : ControllerPublishVolumeRequest)
        (c : VolumeCapability),
      req.volumeId ≠ "" → req.nodeId ≠ "" → req.volumeCapability = some c →
      d.isValidVolumeCapabilities [c] = false →
      resultCode (d.ControllerPublishVolume st req).1 = Code.invalidArgument) ∧
    (∀ (σ : Type) (d : Driver σ) (st : σ) (req : ControllerPublishVolumeRequest)
        (c : VolumeCapability),
      req.volumeId ≠ "" → req.nodeId ≠ "" → req.volumeCapability = some c →
      d.isValidVolumeCapabilities [c] = true →
      d.cloud.isExistInstance st req.nodeId = false →
      resultCode (d.ControllerPublishVolume st req).1 = Code.notFound) ∧
    (∀ (σ : Type) (d : Driver σ) (st : σ) (req : ControllerPublishVolumeRequest)
        (c : VolumeCapability),
      req.volumeId ≠ "" → req.nodeId ≠ "" → req.volumeCapability = some c →
      d.isValidVolumeCapabilities [c] = true →
      d.cloud.isExistInstance st req.nodeId = true →
      (d.cloud.getDiskByID st req.volumeId).2 = some .errNotFound →
      resultCode (d.ControllerPublishVolume st req).1 = Code.notFound) ∧
    (∀ (σ : Type) (d : Driver σ) (st st2 : σ) (req : ControllerPublishVolumeRequest)
        (c : VolumeCapability),
      req.volumeId ≠ "" → req.nodeId ≠ "" → req.volumeCapability = some c →
      d.isValidVolumeCapabilities [c] = true →
      d.cloud.isExistInstance st req.nodeId = true →
      (d.cloud.getDiskByID st req.volumeId).2 = none →
      d.cloud.attachDisk st req.volumeId req.nodeId = (.error .errAlreadyExists, st2) →
      resultCode (d.ControllerPublishVolume st req).1 = Code.alreadyExists) ∧
    (∀ (σ : Type) (d : Driver σ) (st st2 : σ) (req : ControllerPublishVolumeRequest)
        (c : VolumeCapability) (e : CloudErr),
      req.volumeId ≠ "" → req.nodeId ≠ "" → req.volumeCapability = some c →
      d.isValidVolumeCapabilities [c] = true →
      d.cloud.isExistInstance st req.nodeId = true →
      (d.cloud.getDiskByID st req.volumeId).2 = none →
      e ≠ .errAlreadyExists →
      d.cloud.attachDisk st req.volumeId req.nodeId = (.error e, st2) →
      resultCode (d.ControllerPublishVolume st req).1 = Code.internal) ∧
    (∀ (σ : Type) (d : Driver σ) (st st2 : σ) (req : ControllerPublishVolumeRequest)
        (c : VolumeCapability) (devicePath : String),
      req.volumeId ≠ "" → req.nodeId ≠ "" → req.volumeCapability = some c →
      d.isValidVolumeCapabilities [c] = true →
      d.cloud.isExistInstance st req.nodeId = true →
      (d.cloud.getDiskByID st req.volumeId).2 = none →
      d.cloud.attachDisk st req.volumeId req.nodeId = (.ok devicePath, st2) →
      d.ControllerPublishVolume st req = (.ok ⟨[("devicePath", devicePath)]⟩, st2)) := by
  refine ⟨?_, ?_, ?_, ?_, ?_, ?_, ?_, ?_, ?_⟩
  · intro σ d st req h
    simp only [Driver.ControllerPublishVolume]
    rw [if_pos h]
    rfl
  · intro σ d st req h1 h2
    simp only [Driver.ControllerPublishVolume]
    rw [if_neg h1, if_pos h2]
    rfl
  · intro σ d st req h1 h2 h3
    simp only [Driver.ControllerPublishVolume]
    rw [if_neg h1, if_neg h2, h3]
    rfl
  · intro σ d st req c h1 h2 h3 h4
    simp only [Driver.ControllerPublishVolume]
    rw [if_neg h1, if_neg h2, h3]
    simp [h4]
    rfl
  · intro σ d st req c h1 h2 h3 h4 h5
    simp only [Driver.ControllerPublishVolume]
    rw [if_neg h1, if_neg h2, h3]
    simp [h4, h5]
    rfl
  · intro σ d st req c h1 h2 h3 h4 h5 h6
    simp only [Driver.ControllerPublishVolume]
    rw [if_neg h1, if_neg h2, h3]
    simp [h4, h5, h6]
    rfl
  · intro σ d st st2 req c h1 h2 h3 h4 h5 h6 h7
    simp only [Driver.ControllerPublishVolume]
    rw [if_neg h1, if_neg h2, h3]
    simp [h4, h5, h6, h7]
    rfl
  · intro σ d st st2 req c e h1 h2 h3 h4 h5 h6 he h7
    simp only [Driver.ControllerPublishVolume]
    rw [if_neg h1, if_neg h2, h3]
    simp [h4, h5, h6, h7]
    cases e
    case errAlreadyExists => exact absurd rfl he
    all_goals rfl
  · intro σ d st st2 req c devicePath h1 h2 h3 h4 h5 h6 h7
    simp only [Driver.ControllerPublishVolume]
    rw [if_neg h1, if_neg h2, h3]
    simp [h4, h5, h6, h7]

def wPubSt : CloudState := ⟨[("v", ⟨"vol-v", 5, "", ""⟩)], [], ["i-1"], []⟩

def wPubStAfter : CloudState :=
  ⟨[("v", ⟨"vol-v", 5, "", ""⟩)], [], ["i-1"], [("vol-v", "i-1", "/dev/xvdba")]⟩

def wPubStOther : CloudState :=
  ⟨[("v", ⟨"vol-v", 5, "", ""⟩)], [], ["i-1", "i-2"], [("vol-v", "i-2", "/dev/xvdba")]⟩

/-- C8 witness at concrete inputs, exercising every branch. -/
theorem controllerPublishVolume_spec_witness :
    resultCode (stdDriver.ControllerPublishVolume wPubSt ⟨"", "i-1", some stdCap⟩).1 = Code.invalidArgument ∧
    resultCode (stdDriver.ControllerPublishVolume wPubSt ⟨"vol-v", "", some stdCap⟩).1 = Code.invalidArgument ∧
    resultCode (stdDriver.ControllerPublishVolume wPubSt ⟨"vol-v", "i-1", none⟩).1 = Code.invalidArgument ∧
    resultCode (stdDriver.ControllerPublishVolume wPubSt ⟨"vol-v", "i-1", some badCap⟩).1 = Code.invalidArgument ∧
    resultCode (stdDriver.ControllerPublishVolume wPubSt ⟨"vol-v", "i-9", some stdCap⟩).1 = Code.notFound ∧
    resultCode (stdDriver.ControllerPublishVolume wPubSt ⟨"vol-z", "i-1", some stdCap⟩).1 = Code.notFound ∧
    resultCode (stdDriver.ControllerPublishVolume wPubStOther ⟨"vol-v", "i-1", some stdCap⟩).1 = Code.alreadyExists ∧
    resultCode (attachFailDriver.ControllerPublishVolume () ⟨"vol-v", "i-1", some stdCap⟩).1 = Code.internal ∧
    stdDriver.ControllerPublishVolume wPubSt ⟨"vol-v", "i-1", some stdCap⟩ =
      (.ok ⟨[("devicePath", "/dev/xvdba")]⟩, wPubStAfter) := by
  refine ⟨?_, ?_, ?_, ?_, ?_, ?_, ?_, ?_, ?_⟩
  · exact controllerPublishVolume_spec.1 CloudState stdDriver wPubSt ⟨"", "i-1", some stdCap⟩ rfl
  · exact controllerPublishVolume_spec.2.1 CloudState stdDriver wPubSt ⟨"vol-v", "", some stdCap⟩ (by decide) rfl
  · exact controllerPublishVolume_spec.2.2.1 CloudState stdDriver wPubSt ⟨"vol-v", "i-1", none⟩ (by decide) (by decide) rfl
  · exact controllerPublishVolume_spec.2.2.2.1 CloudState stdDriver wPubSt ⟨"vol-v", "i-1", some badCap⟩ badCap
      (by decide) (by decide) rfl (by decide)
  · exact controllerPublishVolume_spec.2.2.2.2.1 CloudState stdDriver wPubSt ⟨"vol-v", "i-9", some stdCap⟩ stdCap
      (by decide) (by decide) rfl (by decide) (by decide)
  · exact controllerPublishVolume_spec.2.2.2.2.2.1 CloudState stdDriver wPubSt ⟨"vol-z", "i-1", some stdCap⟩ stdCap
      (by decide) (by decide) rfl (by decide) (by decide) (by decide)
  · exact controllerPublishVolume_spec.2.2.2.2.2.2.1 CloudState stdDriver wPubStOther wPubStOther
      ⟨"vol-v", "i-1", some stdCap⟩ stdCap
      (by decide) (by decide) rfl (by decide) (by decide) (by decide) (by decide)
  · exact controllerPublishVolume_spec.2.2.2.2.2.2.2.1 Unit attachFailDriver () ()
      ⟨"vol-v", "i-1", some stdCap⟩ stdCap .errTimeout
      (by decide) (by decide) rfl (by decide) (by decide) (by decide) (by decide) (by decide)
  · exact controllerPublishVolume_spec.2.2.2.2.2.2.2.2 CloudState stdDriver wPubSt wPubStAfter
      ⟨"vol-v", "i-1", some stdCap⟩ stdCap "/dev/xvdba"
      (by decide) (by decide) rfl (by decide) (by decide) (by decide) (by decide)

theorem lookupZone_eq_findSome (l : List Topology) :
    lookupZone l = l.findSome? (fun t => t.segments.lookup topologyKey) := by
  induction l with
  | nil => rfl
  | cons t rest ih =>
    simp only [lookupZone, List.findSome?]
    cases t.segments.lookup topologyKey <;> simp [ih]

/-- C9: pickAvailabilityZone returns the value at the zone topology key of
the first Preferred topology carrying it; only when no Preferred topology
carries the key does it scan Requisite in order; a nil requirement (and,
via the Requisite scan, the absence of any carrier) yields the empty
string. -/
theorem pickAvailabilityZone_spec :
    pickAvailabilityZone none = "" ∧
    (∀ (r : TopologyRequirement) (z : String),
      r.preferred.findSome? (fun t => t.segments.lookup topologyKey) = some z →
      pickAvailabilityZone (some r) = z) ∧
    (∀ r : TopologyRequirement,
      r.preferred.findSome? (fun t => t.segments.lookup topologyKey) = none →
      pickAvailabilityZone (some r) =
        ((r.requisite.findSome? (fun t => t.segments.lookup topologyKey)).getD "")) := by
  refine ⟨rfl, ?_, ?_⟩
  · intro r z h
    simp only [pickAvailabilityZone, lookupZone_eq_findSome, h]
  · intro r h
    simp only [pickAvailabilityZone, lookupZone_eq_findSome, h]
    cases r.requisite.findSome? (fun t => t.segments.lookup topologyKey) <;> simp

def wTopoP : TopologyRequirement :=
  ⟨[⟨[(topologyKey, "us-west-2b")]⟩], [⟨[(topologyKey, "us-west-2a")]⟩]⟩

def wTopoR : TopologyRequirement := ⟨[⟨[(topologyKey, "us-west-2b")]⟩], []⟩

def wTopoE : TopologyRequirement := ⟨[⟨[]⟩], [⟨[]⟩]⟩

/-- C9 witness: the preferred zone wins over requisite; requisite is used
when preferred carries no zone key; empty topologies and a nil requirement
yield the empty string (the cases of `TestPickAvailabilityZone`). -/
theorem pickAvailabilityZone_spec_witness :
    pickAvailabilityZone (some wTopoP) = "us-west-2a" ∧
    pickAvailabilityZone (some wTopoR) = "us-west-2b" ∧
    pickAvailabilityZone (some wTopoE) = "" ∧
    pickAvailabilityZone none = "" := by
  refine ⟨?_, ?_, ?_, pickAvailabilityZone_spec.1⟩
  · exact pickAvailabilityZone_spec.2.1 wTopoP "us-west-2a" (by decide)
  · exact (pickAvailabilityZone_spec.2.2 wTopoR (by decide)).trans (by decide)
  · exact (pickAvailabilityZone_spec.2.2 wTopoE (by decide)).trans (by decide)

/-- C10: on the idempotent path of CreateVolume (an existing disk with the
requested name and matching rounded size), the response's volume-context
fsType is the fsType carried by the existing disk, independent of the
fsType parameter of the current request; the fsType parameter is stamped
onto the returned disk only on the create path, where the disk recorded by
the provider carries an empty fsType. -/
theorem createVolume_fsType_spec :
    (∀ (σ : Type) (d : Driver σ) (st : σ) (req : CreateVolumeRequest) (disk : Disk),
      reqValid d req →
      d.cloud.getDiskByName st req.name (RoundUpBytes (reqVolSize req)) = (some disk, none) →
      (d.CreateVolume st req).1 = .ok (newCreateVolumeResponse disk) ∧
      (newCreateVolumeResponse disk).volume.volumeContext = [("fsType", disk.fsType)]) ∧
    (∀ (st : CloudState) (req : CreateVolumeRequest),
      reqValid stdDriver req →
      st.disks.filter (fun p => p.1 == req.name) = [] →
      getParam req.parameters "type" ≠ VolumeTypeIO1 →
      req.volumeContentSource = none →
      ((stdDriver.CreateVolume st req).1 = .ok (newCreateVolumeResponse
          ⟨"vol-" ++ req.name, BytesToGiB (RoundUpBytes (reqVolSize req)),
            pickAvailabilityZone req.accessibilityRequirements,
            getParam req.parameters "fsType"⟩) ∧
        (stdDriver.CreateVolume st req).2.disks = st.disks ++
          [(req.name, ⟨"vol-" ++ req.name, BytesToGiB (RoundUpBytes (reqVolSize req)),
            pickAvailabilityZone req.accessibilityRequirements, ""⟩)])) := by
  constructor
  · intro σ d st req disk hv hget
    rw [createVolume_found_run d st req disk hv hget]
    exact ⟨rfl, rfl⟩
  · intro st req hv hfil htype hsrc
    rw [createVolume_create_run_aws st req hv hfil htype hsrc]
    exact ⟨rfl, rfl⟩

def w10st : CloudState := ⟨[("fs-vol", ⟨"vol-fs-vol", 5, "", ""⟩)], [], [], []⟩

def w10req : CreateVolumeRequest :=
  ⟨"fs-vol", some ⟨5 * GiB, 0⟩, [stdCap], [("fsType", "ext4")], none, none⟩

/-- C10 witness: with an existing 5 GiB disk carrying fsType "" under the
requested name, a CreateVolume request whose fsType parameter is "ext4"
returns the stored fsType "" (not "ext4"); the same request against an
empty provider creates a disk and returns "ext4", while the recorded disk
carries an empty fsType. -/
theorem createVolume_fsType_spec_witness :
    ((stdDriver.CreateVolume w10st w10req).1 =
        .ok (newCreateVolumeResponse ⟨"vol-fs-vol", 5, "", ""⟩) ∧
      (newCreateVolumeResponse ⟨"vol-fs-vol", 5, "", ""⟩).volume.volumeContext =
        [("fsType", "")] ∧
      ("" : String) ≠ "ext4") ∧
    ((stdDriver.CreateVolume emptyState w10req).1 =
        .ok (newCreateVolumeResponse ⟨"vol-fs-vol", 5, "", "ext4"⟩) ∧
      (stdDriver.CreateVolume emptyState w10req).2.disks =
        [("fs-vol", ⟨"vol-fs-vol", 5, "", ""⟩)]) := by
  refine ⟨⟨?_, ?_, by decide⟩, ?_, ?_⟩
  · exact (createVolume_fsType_spec.1 CloudState stdDriver w10st w10req
      ⟨"vol-fs-vol", 5, "", ""⟩ (by decide) (by decide)).1
  · exact (createVolume_fsType_spec.1 CloudState stdDriver w10st w10req
      ⟨"vol-fs-vol", 5, "", ""⟩ (by decide) (by decide)).2
  · exact ((createVolume_fsType_spec.2 emptyState w10req (by decide) (by decide)
      (by decide) (by decide)).1).trans (by decide)
  · exact ((createVolume_fsType_spec.2 emptyState w10req (by decide) (by decide)
      (by decide) (by decide)).2).trans (by decide)

end EBSCSI
